import Mathlib

/-!
Shallow embedding of `app.py` (media relay service) and verification of the
claims about it.

The program is a small HTTP service with four handlers:
  * `update_yt_dlp`  (POST /update)  — shared-secret gated pip upgrade,
  * `get_formats`    (POST /formats) — probe a URL with yt-dlp and project the
    manifest into a list of selectable formats,
  * `download_video` (POST /download) — download into a temporary directory and
    relay the artifact to a remote upload endpoint,
  * a liveness route (out of scope).

The embedding replaces external effects by explicit parameters:
  * the outcome of each `subprocess.run` call is an input
    (`ProbeOutcome`, `DownloadToolOutcome`, `PipOutcome`),
  * the outcome of the `requests.post` upload is an input (`UploadOutcome`),
  * the process environment values `CONOHA_UPLOAD_URL` / `CONOHA_API_KEY` are
    `Option String` parameters (Python's `os.environ.get` returns `None` when
    unset),
  * the filesystem is a list of existing directory paths; `TemporaryDirectory`
    pushes a fresh path and removes it when the `with` block exits.
Every handler additionally returns the list of subprocess invocations it
performed, so "no subprocess is spawned" is statable.
-/

namespace MediaYt

/-! ### Python-style primitives -/

/-- Truthiness of a Python value that is either a string or `None`
(`not data` / `if not request_api_key`): `None` and `""` are falsy. -/
def pyTruthyStr : Option String → Bool
  | none => false
  | some s => !(s == "")

/-- Truthiness of a Python value that is either an int or `None`:
`None` and `0` are falsy. -/
def pyTruthyNat : Option Nat → Bool
  | none => false
  | some n => !(n == 0)

/-- Python's `a or b` on optional ints: yields `a` when `a` is truthy,
otherwise `b` (models `f.get('filesize') or f.get('filesize_approx')`). -/
def pyOrNat (a b : Option Nat) : Option Nat :=
  if pyTruthyNat a then a else b

/-- Python's f-string rendering of a value that may be `None`. -/
def pyStr : Option String → String
  | none => "None"
  | some s => s

/-- Python's `str.strip()` with no argument: drop leading and trailing
whitespace. -/
def pyStrip (s : String) : String :=
  ⟨((s.data.dropWhile Char.isWhitespace).reverse.dropWhile Char.isWhitespace).reverse⟩

/-- Whether `pat` occurs as a contiguous run inside `l`. -/
def charsContain (pat : List Char) : List Char → Bool
  | [] => pat.isEmpty
  | c :: rest => pat.isPrefixOf (c :: rest) || charsContain pat rest

/-- Python's `pat in s` substring test on strings. -/
def strContains (s pat : String) : Bool :=
  charsContain pat.toList s.toList

/-- Python's `round` rounds half to even (banker's rounding).
`roundHalfEvenDiv num den` is the nearest integer to the exact quotient
`num / den` (ties to even), written over `Nat` so it evaluates: the
fractional part `r / den` is compared with `1/2` by comparing `2*r` with
`den`.  The binary-float representation error of the Python runtime is
abstracted away. -/
def roundHalfEvenDiv (num den : Nat) : Nat :=
  let q := num / den
  let r := num % den
  if 2 * r < den then q
  else if den < 2 * r then q + 1
  else if q % 2 == 0 then q else q + 1

/-! ### Responses and invocations -/

/-- The simplified format record built by `get_formats`, holding id, note and
extension. -/
structure SelectableFormat where
  id : String
  note : String
  ext : Option String
  deriving DecidableEq, Repr

/-- The JSON payload of a handler response. -/
inductive Payload where
  /-- `jsonify(status='error', message=...)` produced by `create_error_response`. -/
  | errorEnvelope (message : String)
  /-- `jsonify(status='success', formats=...)` of `/formats`. -/
  | formatList (formats : List SelectableFormat)
  /-- `jsonify(status='success', message=...)` of `/update`. -/
  | successMessage (message : String)
  /-- `jsonify(response.json())` of `/download`: the upload endpoint's JSON body
  passed through. -/
  | passthrough (body : String)
  deriving DecidableEq, Repr

/-- An HTTP response: payload plus status code. -/
structure Response where
  payload : Payload
  status : Nat
  deriving DecidableEq, Repr

/-- Whether a payload is the uniform error envelope. -/
def Payload.isErrorEnvelope : Payload → Bool
  | .errorEnvelope _ => true
  | _ => false

/-- One `subprocess.run` call.  `argv` is the argument-vector mode
(`shell=False`, the default); `shellCmd` is `shell=True`, where the single
string is parsed by the shell. -/
inductive Invocation where
  | argv (args : List String) (timeoutSecs : Nat)
  | shellCmd (commandLine : String) (timeoutSecs : Nat)
  deriving DecidableEq, Repr

/-- A request body as far as the handlers read it: the `url` and `format_id`
fields, each possibly absent.  A request with no parseable JSON body is
modelled as `none` at the use sites. -/
structure ReqBody where
  url : Option String
  format_id : Option String
  deriving DecidableEq, Repr

/-! ### Error messages (verbatim from app.py) -/

def urlMissingMsg : String := "ビデオのURLがリクエストに含まれていません。"
def authFailMsg : String := "認証に失敗しました。"
def configMsg : String := "サーバー設定が不完全です。環境変数が設定されていません。"
def noFileMsg : String := "yt-dlpによるダウンロードに失敗しました。ファイルが生成されませんでした。"
def toolFailPre : String := "yt-dlpの実行に失敗しました: "
def uploadFailPre : String := "ConoHaサーバーへのアップロードに失敗しました: "
def unexpectedPre : String := "予期せぬエラーが発生しました: "
def updateOkPre : String := "yt-dlpのアップデートが完了しました。\n"

/-! ### /update handler -/

/-- Outcome of the `pip install --upgrade yt-dlp` subprocess: normal exit 0
with captured stdout, or any raised exception (`CalledProcessError`,
`TimeoutExpired`, ...) with its `str(e)` text. -/
inductive PipOutcome where
  | ok (stdout : String)
  | failure (eMsg : String)
  deriving DecidableEq, Repr

/-- `update_yt_dlp` (app.py lines 34-54).  `secret` is the environment value
`CONOHA_API_KEY`; `xApiKey` is the `X-API-KEY` request header
(`headers.get` yields `None` when absent).  Returns the response and the
subprocess invocations performed.  `sys.executable` is rendered as
`"python"`. -/
def update_yt_dlp (secret : Option String) (xApiKey : Option String)
    (pip : PipOutcome) : Response × List Invocation :=
  if !(pyTruthyStr xApiKey) || xApiKey != secret then
    (⟨.errorEnvelope authFailMsg, 401⟩, [])
  else
    let inv := Invocation.argv ["python", "-m", "pip", "install", "--upgrade", "yt-dlp"] 120
    match pip with
    | .ok out => (⟨.successMessage (updateOkPre ++ out), 200⟩, [inv])
    | .failure e => (⟨.errorEnvelope (unexpectedPre ++ e), 500⟩, [inv])

/-! ### /formats handler -/

/-- One entry of the manifest's `formats` list, as far as `get_formats` reads
it.  `resolution`/`ext` model dictionary-key presence (`f.get`); `format_id`
is read with `f['format_id']` and is modelled as present. -/
structure FormatEntry where
  format_id : String
  resolution : Option String
  ext : Option String
  filesize : Option Nat
  filesize_approx : Option Nat
  deriving DecidableEq, Repr

/-- `round(filesize / (1024*1024), 2)` in hundredths of a megabyte:
the exact value `n / (1024*1024) * 100 = (n*100) / 1048576` rounded half to
even. -/
def mbHundredths (n : Nat) : Nat :=
  roundHalfEvenDiv (n * 100) 1048576

/-- Python's repr of the rounded megabyte value, as interpolated into the
note f-string: `12.0`, `12.5`, `12.34`, `0.05`, ... . -/
def renderMB (n : Nat) : String :=
  let h := mbHundredths n
  let whole := h / 100
  let cents := h % 100
  if cents == 0 then toString whole ++ ".0"
  else if cents % 10 == 0 then toString whole ++ "." ++ toString (cents / 10)
  else if cents < 10 then toString whole ++ ".0" ++ toString cents
  else toString whole ++ "." ++ toString cents

/-- The size tail appended to a note when a truthy byte size is available:
`" - 約{round(filesize / (1024*1024), 2)}MB"`. -/
def sizeNote (n : Nat) : String :=
  " - 約" ++ renderMB n ++ "MB"

/-- The note derivation of app.py lines 83-89:
resolution (defaulting to `'audio only'` when the key is absent), extension,
and an optional size tail gated on Python truthiness of
`f.get('filesize') or f.get('filesize_approx')`. -/
def note_of (f : FormatEntry) : String :=
  let resolution := f.resolution.getD "audio only"
  let ext := pyStr f.ext
  let filesize := pyOrNat f.filesize f.filesize_approx
  let note := resolution ++ " (" ++ ext ++ ")"
  if pyTruthyNat filesize then note ++ sizeNote (filesize.getD 0) else note

/-- Projection of one manifest entry into a selectable format
(app.py lines 91-95). -/
def toSelectable (f : FormatEntry) : SelectableFormat :=
  ⟨f.format_id, note_of f, f.ext⟩

/-- The URL preprocessing shared by `/formats` and `/download`
(app.py lines 69-72 and 118-121): YouTube URLs are wrapped in literal double
quotes; every other URL is passed through unchanged. -/
def yt_quote (video_url : String) : String :=
  if strContains video_url "youtube.com" || strContains video_url "youtu.be" then
    "\"" ++ video_url ++ "\""
  else
    video_url

/-- Outcome of the probe subprocess plus the subsequent `json.loads`:
timeout, non-zero exit (`check=True` raises), unparseable stdout, or a parsed
manifest.  `video_info.get('formats', [])` makes a manifest without a
`formats` key the same as one with an empty list, so `manifest []` covers
both. -/
inductive ProbeOutcome where
  | timeout (eMsg : String)
  | exitError (eMsg : String)
  | badJson (eMsg : String)
  | manifest (formats : List FormatEntry)
  deriving DecidableEq, Repr

/-- `get_formats` (app.py lines 57-99).  Returns the response and the
subprocess invocations performed.  Note the invocation:
`subprocess.run(' '.join(command), shell=True, ...)` — the argument list is
joined into one string and handed to a shell. -/
def get_formats (data : Option ReqBody) (probe : ProbeOutcome) :
    Response × List Invocation :=
  match data with
  | none => (⟨.errorEnvelope urlMissingMsg, 400⟩, [])
  | some b =>
    match b.url with
    | none => (⟨.errorEnvelope urlMissingMsg, 400⟩, [])
    | some u =>
      let video_url := pyStrip u
      let final_url := yt_quote video_url
      let inv := Invocation.shellCmd
        (String.intercalate " " ["yt-dlp", "--dump-json", "--no-playlist", final_url]) 60
      match probe with
      | .timeout e => (⟨.errorEnvelope (toolFailPre ++ e), 500⟩, [inv])
      | .exitError e => (⟨.errorEnvelope (toolFailPre ++ e), 500⟩, [inv])
      | .badJson e => (⟨.errorEnvelope (toolFailPre ++ e), 500⟩, [inv])
      | .manifest formats =>
          (⟨.formatList (formats.map toSelectable), 200⟩, [inv])

/-! ### /download handler -/

/-- Outcome of the download subprocess: timeout, non-zero exit, or normal
exit together with the resulting `os.listdir(temp_dir)` listing. -/
inductive DownloadToolOutcome where
  | timeout (eMsg : String)
  | exitError (eMsg : String)
  | finished (files : List String)
  deriving DecidableEq, Repr

/-- Outcome of `requests.post(CONOHA_UPLOAD_URL, ...)`: an HTTP response with
status, body and whether the body parses as JSON, or a raised exception
(connection error, upload timeout, failure opening the artifact, ...). -/
inductive UploadOutcome where
  | responded (status : Nat) (body : String) (bodyIsJson : Bool)
  | failed (eMsg : String)
  deriving DecidableEq, Repr

/-- The default format selector (app.py line 115). -/
def DEFAULT_FORMAT : String :=
  "bestvideo[ext=mp4]+bestaudio[ext=m4a]/best[ext=mp4]/best"

/-- Stand-in for `str(e)` of the `requests.HTTPError` raised by
`raise_for_status`; the exact text is produced by the requests library and
does not matter to any claim. -/
def httpErrorText (status : Nat) : String :=
  "HTTPError " ++ toString status

/-- Stand-in for `str(e)` of the JSON decode error raised by
`response.json()` on a non-JSON body. -/
def jsonDecodeErrorText : String := "JSONDecodeError"

/-- Result of one `/download` call: the HTTP response, the subprocess
invocations, whether an upload request was issued, and the directory set of
the filesystem after the call returns. -/
structure DVResult where
  response : Response
  invocations : List Invocation
  uploadAttempted : Bool
  finalFs : List String
  deriving Repr

/-- `download_video` (app.py lines 102-151).

`uploadUrl`/`apiKey` are the environment values; `data` the request body;
`tool`/`upload` the external outcomes; `fresh` the (unique) path that
`TemporaryDirectory()` would allocate; `fs` the set of directories existing
before the call.

The `with TemporaryDirectory() as temp_dir:` block is modelled by pushing
`fresh` onto `fs` and erasing it when the block exits.  Both `try` blocks
inside the `with` catch `Exception`, so the block body always produces a
response and the context manager's removal runs on every path.

`response.raise_for_status()` raises `HTTPError` exactly when
`400 <= status < 600`; otherwise `response.json()` raises when the body is
not JSON.  Both exceptions land in the same `except` clause. -/
def download_video (uploadUrl apiKey : Option String) (data : Option ReqBody)
    (tool : DownloadToolOutcome) (upload : UploadOutcome)
    (fresh : String) (fs : List String) : DVResult :=
  if !(pyTruthyStr uploadUrl) || !(pyTruthyStr apiKey) then
    ⟨⟨.errorEnvelope configMsg, 500⟩, [], false, fs⟩
  else
    match data with
    | none => ⟨⟨.errorEnvelope urlMissingMsg, 400⟩, [], false, fs⟩
    | some b =>
      match b.url with
      | none => ⟨⟨.errorEnvelope urlMissingMsg, 400⟩, [], false, fs⟩
      | some u =>
        let video_url := pyStrip u
        let format_id := b.format_id.getD DEFAULT_FORMAT
        let final_url := yt_quote video_url
        let fs1 := fresh :: fs
        let output_template := "\"" ++ fresh ++ "/%(title)s-[%(format_id)s].%(ext)s\""
        let inv := Invocation.shellCmd
          (String.intercalate " "
            ["yt-dlp", "--no-playlist", "-f", format_id, "-o", output_template, final_url]) 1800
        let body : Response × Bool :=
          match tool with
          | .timeout e => (⟨.errorEnvelope (toolFailPre ++ e), 500⟩, false)
          | .exitError e => (⟨.errorEnvelope (toolFailPre ++ e), 500⟩, false)
          | .finished files =>
            match files with
            | [] => (⟨.errorEnvelope noFileMsg, 500⟩, false)
            | _file_name :: _ =>
              match upload with
              | .failed e => (⟨.errorEnvelope (uploadFailPre ++ e), 500⟩, true)
              | .responded status respBody isJson =>
                if 400 ≤ status ∧ status < 600 then
                  (⟨.errorEnvelope (uploadFailPre ++ httpErrorText status), 500⟩, true)
                else if isJson then
                  (⟨.passthrough respBody, status⟩, true)
                else
                  (⟨.errorEnvelope (uploadFailPre ++ jsonDecodeErrorText), 500⟩, true)
        ⟨body.1, [inv], body.2, fs1.erase fresh⟩

/-! ### Theorems -/

/-- C7: a probe whose manifest contains zero formats yields a success
response carrying the empty format list, not an error. -/
theorem C7_zero_formats_empty_success (u : String) (fid : Option String) :
    (get_formats (some ⟨some u, fid⟩) (ProbeOutcome.manifest [])).1
      = ⟨Payload.formatList [], 200⟩ := rfl

/-- C8: a request to `/update` whose `X-API-KEY` header is absent or differs
from the configured shared secret gets the 401 error envelope and spawns no
subprocess. -/
theorem C8_update_auth (secret header : Option String) (pip : PipOutcome)
    (h : header = none ∨ header ≠ secret) :
    (update_yt_dlp secret header pip).1 = ⟨Payload.errorEnvelope authFailMsg, 401⟩ ∧
    (update_yt_dlp secret header pip).2 = [] := by
  have hcond : (!(pyTruthyStr header) || header != secret) = true := by
    rcases h with h | h
    · subst h; simp [pyTruthyStr]
    · simp [bne_iff_ne, h]
  simp [update_yt_dlp, hcond]

theorem C8_update_auth_witness :
    (update_yt_dlp (some "s3cret") (some "wrong") (PipOutcome.ok "out")).1
      = ⟨Payload.errorEnvelope authFailMsg, 401⟩ ∧
    (update_yt_dlp (some "s3cret") (some "wrong") (PipOutcome.ok "out")).2 = [] :=
  C8_update_auth (some "s3cret") (some "wrong") (PipOutcome.ok "out")
    (Or.inr (by decide))

/-- C10: with the shared secret unset in the environment
(`CONOHA_API_KEY = None`), every `/update` request is rejected with the 401
error envelope and the upgrade command is never spawned, whatever header is
supplied. -/
theorem C10_unset_secret_always_401 (header : Option String) (pip : PipOutcome) :
    (update_yt_dlp none header pip).1 = ⟨Payload.errorEnvelope authFailMsg, 401⟩ ∧
    (update_yt_dlp none header pip).2 = [] := by
  rcases header with _ | h
  · simp [update_yt_dlp, pyTruthyStr]
  · have hb : ((some h : Option String) != none) = true := rfl
    simp [update_yt_dlp, hb]

/-- C2: the claim fails on the code.  Both `/formats` and `/download` join
the argument list into one string and execute it with `shell=True`; a URL
containing the shell metacharacter `;` is passed into that command line
verbatim, unquoted and unescaped (only YouTube URLs get naive double-quote
wrapping).  This theorem evaluates the embedding at such a URL and exhibits
the exact shell command line built. -/
theorem C2_shell_join_unescaped :
    (get_formats (some ⟨some "http://evil.example/;id", none⟩)
        (ProbeOutcome.timeout "t")).2
      = [Invocation.shellCmd "yt-dlp --dump-json --no-playlist http://evil.example/;id" 60] ∧
    (download_video (some "http://upload.example") (some "k")
        (some ⟨some "http://evil.example/;id", none⟩)
        (DownloadToolOutcome.timeout "t") (UploadOutcome.failed "f") "tmpdir" []).invocations
      = [Invocation.shellCmd
          ("yt-dlp --no-playlist -f bestvideo[ext=mp4]+bestaudio[ext=m4a]/best[ext=mp4]/best -o \"tmpdir/%(title)s-[%(format_id)s].%(ext)s\" http://evil.example/;id")
          1800] := by
  constructor <;> rfl

/-- C1: whatever the outcome (tool timeout, tool failure, zero artifacts,
upload failure, upload success — covered by quantifying over every
`DownloadToolOutcome` and `UploadOutcome`), the temporary workspace directory
allocated for a `/download` call does not exist after the call returns. -/
theorem C1_workspace_teardown (uploadUrl apiKey : Option String) (data : Option ReqBody)
    (tool : DownloadToolOutcome) (upload : UploadOutcome) (fresh : String) (fs : List String)
    (hfresh : fresh ∉ fs) :
    fresh ∉ (download_video uploadUrl apiKey data tool upload fresh fs).finalFs := by
  have h : (download_video uploadUrl apiKey data tool upload fresh fs).finalFs = fs := by
    rcases data with _ | ⟨url, fid⟩
    · unfold download_video
      split
      · rfl
      · rfl
    · rcases url with _ | u
      · unfold download_video
        split
        · rfl
        · rfl
      · unfold download_video
        split
        · rfl
        · show (fresh :: fs).erase fresh = fs
          exact List.erase_cons_head fresh fs
  rw [h]
  exact hfresh

theorem C1_workspace_teardown_witness :
    "wsdir" ∉ (download_video (some "http://upload.example") (some "k")
        (some ⟨some "http://v.example/x", none⟩) (DownloadToolOutcome.finished ["a.mp4"])
        (UploadOutcome.responded 201 "uploaded-ok" true) "wsdir" []).finalFs :=
  C1_workspace_teardown (some "http://upload.example") (some "k")
    (some ⟨some "http://v.example/x", none⟩) (DownloadToolOutcome.finished ["a.mp4"])
    (UploadOutcome.responded 201 "uploaded-ok" true) "wsdir" [] (by decide)

/-- C3 fails as stated: the configuration check of `/download` runs before
the body check, so with the server configuration unset a request missing the
url field gets the 500 configuration envelope, not 400 (though still no
subprocess). -/
theorem C3_counterexample_config_shadows_400 :
    (download_video none none (some ⟨none, none⟩) (DownloadToolOutcome.finished [])
        (UploadOutcome.failed "f") "wsdir" []).response.status = 500 ∧
    ¬ (download_video none none (some ⟨none, none⟩) (DownloadToolOutcome.finished [])
        (UploadOutcome.failed "f") "wsdir" []).response.status = 400 := by
  constructor <;> decide

/-- The request body has no `url` field: either there is no parsed body at
all (`not data`) or the dictionary lacks the key (`'url' not in data`). -/
def missingUrl : Option ReqBody → Prop
  | none => True
  | some b => b.url = none

/-- C3 (amended): a `/formats` request missing the url field always gets the
400 error envelope with no subprocess; a `/download` request missing the url
field gets the 400 error envelope with no subprocess and no upload when both
configuration values are set, and the 500 configuration envelope (still with
no subprocess) when either is unset. -/
theorem C3_missing_url_400 :
    (∀ data probe, missingUrl data →
      (get_formats data probe).1 = ⟨Payload.errorEnvelope urlMissingMsg, 400⟩ ∧
      (get_formats data probe).2 = []) ∧
    (∀ uploadUrl apiKey data tool upload fresh fs,
      pyTruthyStr uploadUrl = true → pyTruthyStr apiKey = true → missingUrl data →
      (download_video uploadUrl apiKey data tool upload fresh fs).response
          = ⟨Payload.errorEnvelope urlMissingMsg, 400⟩ ∧
      (download_video uploadUrl apiKey data tool upload fresh fs).invocations = [] ∧
      (download_video uploadUrl apiKey data tool upload fresh fs).uploadAttempted = false) ∧
    (∀ uploadUrl apiKey data tool upload fresh fs,
      (pyTruthyStr uploadUrl = false ∨ pyTruthyStr apiKey = false) →
      (download_video uploadUrl apiKey data tool upload fresh fs).response
          = ⟨Payload.errorEnvelope configMsg, 500⟩ ∧
      (download_video uploadUrl apiKey data tool upload fresh fs).invocations = []) := by
  refine ⟨?_, ?_, ?_⟩
  · intro data probe h
    rcases data with _ | ⟨url, fid⟩
    · exact ⟨rfl, rfl⟩
    · obtain rfl : url = none := h
      exact ⟨rfl, rfl⟩
  · intro uploadUrl apiKey data tool upload fresh fs hU hK h
    have hcond : (!(pyTruthyStr uploadUrl) || !(pyTruthyStr apiKey)) = false := by
      simp [hU, hK]
    rcases data with _ | ⟨url, fid⟩
    · simp [download_video, hcond]
    · obtain rfl : url = none := h
      simp [download_video, hcond]
  · intro uploadUrl apiKey data tool upload fresh fs h
    have hcond : (!(pyTruthyStr uploadUrl) || !(pyTruthyStr apiKey)) = true := by
      rcases h with h | h <;> simp [h]
    simp [download_video, hcond]

theorem C3_missing_url_400_witness :
    (download_video (some "http://upload.example") (some "k") (some ⟨none, none⟩)
        (DownloadToolOutcome.finished ["a.mp4"]) (UploadOutcome.failed "f") "wsdir" []).response
      = ⟨Payload.errorEnvelope urlMissingMsg, 400⟩ ∧
    (download_video (some "http://upload.example") (some "k") (some ⟨none, none⟩)
        (DownloadToolOutcome.finished ["a.mp4"]) (UploadOutcome.failed "f") "wsdir" []).invocations = [] ∧
    (download_video (some "http://upload.example") (some "k") (some ⟨none, none⟩)
        (DownloadToolOutcome.finished ["a.mp4"]) (UploadOutcome.failed "f") "wsdir" []).uploadAttempted = false :=
  C3_missing_url_400.2.1 (some "http://upload.example") (some "k") (some ⟨none, none⟩)
    (DownloadToolOutcome.finished ["a.mp4"]) (UploadOutcome.failed "f") "wsdir" []
    (by decide) (by decide) rfl

/-- C5: with valid configuration and a url present, a tool invocation that
exits successfully but leaves the workspace listing empty makes the call
return the 500 no-artifact error envelope, and no upload is attempted. -/
theorem C5_no_artifact (uploadUrl apiKey u : String) (fid : Option String)
    (upload : UploadOutcome) (fresh : String) (fs : List String)
    (hU : uploadUrl ≠ "") (hK : apiKey ≠ "") :
    (download_video (some uploadUrl) (some apiKey) (some ⟨some u, fid⟩)
        (DownloadToolOutcome.finished []) upload fresh fs).response
      = ⟨Payload.errorEnvelope noFileMsg, 500⟩ ∧
    (download_video (some uploadUrl) (some apiKey) (some ⟨some u, fid⟩)
        (DownloadToolOutcome.finished []) upload fresh fs).uploadAttempted = false := by
  have hcond : (!(pyTruthyStr (some uploadUrl)) || !(pyTruthyStr (some apiKey))) = false := by
    simp [pyTruthyStr, hU, hK]
  simp [download_video, hcond]

theorem C5_no_artifact_witness :
    (download_video (some "http://upload.example") (some "k")
        (some ⟨some "http://v.example/x", none⟩)
        (DownloadToolOutcome.finished []) (UploadOutcome.failed "f") "wsdir" []).response
      = ⟨Payload.errorEnvelope noFileMsg, 500⟩ ∧
    (download_video (some "http://upload.example") (some "k")
        (some ⟨some "http://v.example/x", none⟩)
        (DownloadToolOutcome.finished []) (UploadOutcome.failed "f") "wsdir" []).uploadAttempted = false :=
  C5_no_artifact "http://upload.example" "k" "http://v.example/x" none
    (UploadOutcome.failed "f") "wsdir" [] (by decide) (by decide)

/-- C4 fails as stated: a success (200) status from the upload endpoint whose
body is not JSON is not returned verbatim — `response.json()` raises and the
handler answers with the 500 relay-failure envelope instead. -/
theorem C4_counterexample_nonjson_success_body :
    (download_video (some "http://upload.example") (some "k")
        (some ⟨some "http://v.example/x", none⟩) (DownloadToolOutcome.finished ["a.mp4"])
        (UploadOutcome.responded 200 "plain-text-body" false) "wsdir" []).response
      = ⟨Payload.errorEnvelope (uploadFailPre ++ jsonDecodeErrorText), 500⟩ ∧
    ¬ (download_video (some "http://upload.example") (some "k")
        (some ⟨some "http://v.example/x", none⟩) (DownloadToolOutcome.finished ["a.mp4"])
        (UploadOutcome.responded 200 "plain-text-body" false) "wsdir" []).response
      = ⟨Payload.passthrough "plain-text-body", 200⟩ := by
  constructor <;> decide

/-- C4 (amended): once the tool produced at least one artifact, an upload
status in 400..599 yields the 500 relay-failure envelope; any other status
whose body parses as JSON is returned verbatim (body and status); any other
status with a non-JSON body also yields the 500 relay-failure envelope. -/
theorem C4_upload_relay (uploadUrl apiKey u : String) (fid : Option String)
    (f0 : String) (rest : List String) (status : Nat) (respBody : String) (isJson : Bool)
    (fresh : String) (fs : List String)
    (hU : uploadUrl ≠ "") (hK : apiKey ≠ "") :
    ((400 ≤ status ∧ status < 600) →
      (download_video (some uploadUrl) (some apiKey) (some ⟨some u, fid⟩)
          (DownloadToolOutcome.finished (f0 :: rest))
          (UploadOutcome.responded status respBody isJson) fresh fs).response
        = ⟨Payload.errorEnvelope (uploadFailPre ++ httpErrorText status), 500⟩) ∧
    (¬ (400 ≤ status ∧ status < 600) → isJson = true →
      (download_video (some uploadUrl) (some apiKey) (some ⟨some u, fid⟩)
          (DownloadToolOutcome.finished (f0 :: rest))
          (UploadOutcome.responded status respBody isJson) fresh fs).response
        = ⟨Payload.passthrough respBody, status⟩) ∧
    (¬ (400 ≤ status ∧ status < 600) → isJson = false →
      (download_video (some uploadUrl) (some apiKey) (some ⟨some u, fid⟩)
          (DownloadToolOutcome.finished (f0 :: rest))
          (UploadOutcome.responded status respBody isJson) fresh fs).response
        = ⟨Payload.errorEnvelope (uploadFailPre ++ jsonDecodeErrorText), 500⟩) := by
  have hcond : (!(pyTruthyStr (some uploadUrl)) || !(pyTruthyStr (some apiKey))) = false := by
    simp [pyTruthyStr, hU, hK]
  refine ⟨?_, ?_, ?_⟩
  · intro h
    simp [download_video, hcond, h]
  · intro h hj
    subst hj
    simp [download_video, hcond, h]
  · intro h hj
    subst hj
    simp [download_video, hcond, h]

theorem C4_upload_relay_witness :
    (download_video (some "http://upload.example") (some "k")
        (some ⟨some "http://v.example/x", none⟩) (DownloadToolOutcome.finished ["a.mp4"])
        (UploadOutcome.responded 201 "upload-id-xyz" true) "wsdir" []).response
      = ⟨Payload.passthrough "upload-id-xyz", 201⟩ :=
  (C4_upload_relay "http://upload.example" "k" "http://v.example/x" none "a.mp4" []
      201 "upload-id-xyz" true "wsdir" [] (by decide) (by decide)).2.1 (by decide) rfl

/-- The resolution/extension core of a note, before the optional size tail:
`"{resolution} ({ext})"` with `'audio only'` as the resolution default. -/
def base_note (f : FormatEntry) : String :=
  (f.resolution.getD "audio only") ++ " (" ++ pyStr f.ext ++ ")"

/-- C6: every note is the resolution-or-audio-only core with the extension,
plus a size tail in megabytes (rounded to two decimals) exactly when a
reported or approximate byte size is available; entries with no byte size get
the bare core, so two entries differing only in the presence of a size field
have notes differing only by that tail. -/
theorem C6_note_derivation :
    (∀ f : FormatEntry, f.filesize = none → f.filesize_approx = none →
      note_of f = base_note f) ∧
    (∀ (f : FormatEntry) (n : Nat), pyOrNat f.filesize f.filesize_approx = some n → n ≠ 0 →
      note_of f = base_note f ++ sizeNote n) ∧
    (∀ f1 f2 : FormatEntry, f1.resolution = f2.resolution → f1.ext = f2.ext →
      f2.filesize = none → f2.filesize_approx = none →
      ∀ n : Nat, pyOrNat f1.filesize f1.filesize_approx = some n → n ≠ 0 →
      note_of f1 = note_of f2 ++ sizeNote n) := by
  have key1 : ∀ f : FormatEntry, f.filesize = none → f.filesize_approx = none →
      note_of f = base_note f := by
    intro f h1 h2
    simp [note_of, base_note, pyOrNat, pyTruthyNat, h1, h2]
  have key2 : ∀ (f : FormatEntry) (n : Nat),
      pyOrNat f.filesize f.filesize_approx = some n → n ≠ 0 →
      note_of f = base_note f ++ sizeNote n := by
    intro f n h hn
    simp [note_of, base_note, pyTruthyNat, h, hn]
  refine ⟨key1, key2, ?_⟩
  intro f1 f2 hres hext h2fs h2fa n hn hn0
  rw [key2 f1 n hn hn0, key1 f2 h2fs h2fa]
  unfold base_note
  rw [hres, hext]

theorem C6_note_derivation_witness :
    note_of ⟨"137", some "1080p", some "mp4", some 5242880, none⟩
      = note_of ⟨"137", some "1080p", some "mp4", none, none⟩ ++ sizeNote 5242880 :=
  C6_note_derivation.2.2 ⟨"137", some "1080p", some "mp4", some 5242880, none⟩
    ⟨"137", some "1080p", some "mp4", none, none⟩ rfl rfl rfl rfl
    5242880 (by decide) (by decide)

/-- C9: a byte size of `0` (Python-falsy) behaves exactly like a missing
size: the approximate size is the fallback, a truthy approximate size still
produces the tail, and when both fields are falsy the note has no size tail —
a literal size of 0 bytes is never rendered. -/
theorem C9_falsy_filesize :
    (∀ f : FormatEntry,
      note_of { f with filesize := some 0 } = note_of { f with filesize := none }) ∧
    (∀ (f : FormatEntry) (n : Nat),
      (f.filesize = some 0 ∨ f.filesize = none) → f.filesize_approx = some n → n ≠ 0 →
      note_of f = base_note f ++ sizeNote n) ∧
    (∀ f : FormatEntry, pyTruthyNat f.filesize = false →
      pyTruthyNat f.filesize_approx = false →
      note_of f = base_note f) := by
  refine ⟨?_, ?_, ?_⟩
  · intro f
    simp [note_of, pyOrNat, pyTruthyNat]
  · intro f n h hfa hn
    rcases h with h | h <;>
      simp [note_of, base_note, pyOrNat, pyTruthyNat, h, hfa, hn]
  · intro f h1 h2
    simp [note_of, base_note, pyOrNat, h1, h2]

theorem C9_falsy_filesize_witness :
    note_of ⟨"140", none, some "m4a", some 0, some 1048576⟩
      = base_note ⟨"140", none, some "m4a", some 0, some 1048576⟩ ++ sizeNote 1048576 :=
  C9_falsy_filesize.2.1 ⟨"140", none, some "m4a", some 0, some 1048576⟩ 1048576
    (Or.inl rfl) rfl (by decide)

end MediaYt
